import Mathlib

/-!
Verification of the Kato asynchronous operation status tracker
(`src/spinnaker_testing/kato.py`, class `_KatoStatus`).

The tracker is constructed from the decoded body of the initial HTTP
response and is then updated by feeding it parsed poll documents.  We
embed the Python code shallowly:

* A Python/JSON value is the inductive type `Json`; `doc[key]` on a
  value becomes `Json.getField`, returning `none` both when the value
  is not a dict (Python `TypeError`) and when the key is missing
  (Python `KeyError`).
* Python truthiness (`if status['completed']:`) is `Json.truthy`.
* A method that can raise an uncaught exception is embedded as a
  function into `Option`: a `none` result models the exception
  propagating out of the method.
* The `json.JSONDecoder().decode` call in the constructor, whose
  `ValueError`/`TypeError` are caught and leave `doc = None`, is
  embedded by handing the constructor the decode outcome directly as
  an `Option Json` (`none` = the decode raised).

The base class `sk.SpinnakerStatus` is not part of the sources; the
two pieces of its behaviour the claims depend on (the initial
`PENDING` state and the terminal guard of `refresh`) are modelled from
the specification and marked as such in their doc comments.
-/

namespace Spinnaker

/-- A Python value as produced by `json.JSONDecoder().decode`:
`None`, booleans, numbers, strings, lists and dicts. -/
inductive Json where
  | null
  | bool (b : Bool)
  | num (n : Int)
  | str (s : String)
  | arr (elems : List Json)
  | obj (fields : List (String × Json))

/-- Key lookup in a dict's field list (first binding wins). -/
def Json.lookupField : List (String × Json) → String → Option Json
  | [], _ => none
  | (k, v) :: rest, key => if k = key then some v else Json.lookupField rest key

/-- Python subscript `value[key]` for a string key: `none` models both
a `TypeError` (value is not a dict) and a `KeyError` (key missing). -/
def Json.getField : Json → String → Option Json
  | Json.obj fields, key => Json.lookupField fields key
  | _, _ => none

/-- Python `isinstance(value, dict)`. -/
def Json.isObj : Json → Bool
  | Json.obj _ => true
  | _ => false

/-- Python truthiness of a decoded JSON value: `None`, `False`, `0`,
`""`, `[]` and `{}` are falsy, everything else truthy. -/
def Json.truthy : Json → Bool
  | Json.null => false
  | Json.bool b => b
  | Json.num n => n != 0
  | Json.str s => s != ""
  | Json.arr elems => !elems.isEmpty
  | Json.obj fields => !fields.isEmpty

/-- The observable attributes of a `_KatoStatus` tracker.  `failed`
and `current_state` hold raw Python values (the code assigns
`status['failed']` and `status['phase']` without conversion);
`finished` is only ever assigned the Python literals `True`/`False`,
so it is a `Bool`. -/
structure KatoStatus where
  finished : Bool
  failed : Json
  current_state : Json
  exception_details : Option Json
  detail_path : Option Json
  request_id : Option Json
  error : Option String

namespace KatoStatus

/-- Modelled from the spec: the base-class constructor
`sk.SpinnakerStatus.__init__` is not among the sources (only
`kato.py` is).  Per the spec (§4.2), a successfully constructed
tracker starts in state `PENDING`, with no exception details, no
error and no tracking identifiers yet. -/
def baseInit : KatoStatus :=
  { finished := false
    failed := Json.bool false
    current_state := Json.str "PENDING"
    exception_details := none
    detail_path := none
    request_id := none
    error := none }

/-- `_KatoStatus.__init__` from `kato.py`.  `doc` is the outcome of
`json.JSONDecoder().decode(original_response.output)` with
`ValueError`/`TypeError` caught (`none` = the decode raised, so the
Python variable `doc` stays `None`); `orig` stands for
`'{0}'.format(original_response)`.  A `none` result models an
uncaught exception (`KeyError` on `doc['resourceUri']` or
`doc['id']`). -/
def init (doc : Option Json) (orig : String) : Option KatoStatus :=
  let s : KatoStatus := { baseInit with finished := false, failed := Json.bool false }
  match doc with
  | some (Json.obj fields) =>
    match Json.lookupField fields "resourceUri" with
    | none => none
    | some uri =>
      match Json.lookupField fields "id" with
      | none => none
      | some rid => some { s with detail_path := some uri, request_id := some rid }
  | _ =>
    some { s with
      error := some ("Invalid response=\"" ++ orig ++ "\"")
      finished := true
      failed := Json.bool true
      current_state := Json.str "CITEST_INTERNAL_ERROR" }

/-- `_KatoStatus._update_response_from_json` from `kato.py`: reads
`doc['status']`, its `completed`, `failed` and `phase` entries, sets
`current_state` from the phase, clears `exception_details`, marks the
tracker finished (copying the raw failed value) when `completed` is
truthy, and captures `status['status']` as `exception_details` when
`failed` is truthy.  A `none` result models an uncaught
`KeyError`/`TypeError` from one of the subscripts. -/
def updateResponseFromJson (s : KatoStatus) (doc : Json) : Option KatoStatus :=
  match Json.getField doc "status" with
  | none => none
  | some status =>
    match Json.getField status "completed" with
    | none => none
    | some completed =>
      match Json.getField status "failed" with
      | none => none
      | some failed =>
        match Json.getField status "phase" with
        | none => none
        | some phase =>
          let s1 : KatoStatus := { s with current_state := phase, exception_details := none }
          let s2 : KatoStatus :=
            if completed.truthy then { s1 with finished := true, failed := failed } else s1
          if failed.truthy then
            match Json.getField status "status" with
            | none => none
            | some det => some { s2 with exception_details := some det }
          else
            some s2

/-- Modelled from the spec: `sk.SpinnakerStatus.refresh` is not among
the sources.  Per the spec (§4.2), `refresh(new_document)` is
"ignored if already terminal (idempotent no-op)" and otherwise
updates the tracker from the document through the subclass hook
`_update_response_from_json`. -/
def refresh (s : KatoStatus) (doc : Json) : Option KatoStatus :=
  if s.finished then some s
  else updateResponseFromJson s doc

/-- Feed a sequence of poll documents to `refresh`, propagating an
uncaught exception (`none`). -/
def refreshAll (s : KatoStatus) : List Json → Option KatoStatus
  | [] => some s
  | d :: ds =>
    match refresh s d with
    | none => none
    | some s2 => refreshAll s2 ds

/-- `_KatoStatus.finished_ok`: `self._finished and not self._failed`
(Python truthiness on the raw failed value). -/
def finished_ok (s : KatoStatus) : Bool :=
  s.finished && !s.failed.truthy

/-- `_KatoStatus.timed_out`: the property unconditionally returns
`False`. -/
def timed_out (_s : KatoStatus) : Bool :=
  false

end KatoStatus

/-- Tracker states reachable by construction (from any decode outcome
of the initial response) followed by any sequence of successful
refreshes. -/
inductive Reachable : KatoStatus → Prop where
  | init (doc : Option Json) (orig : String) (s : KatoStatus)
      (h : KatoStatus.init doc orig = some s) : Reachable s
  | step (s s2 : KatoStatus) (doc : Json) (hs : Reachable s)
      (h : KatoStatus.refresh s doc = some s2) : Reachable s2

/-- The tracker constructed from the valid initial response
`obj [resourceUri ↦ "/task/42", id ↦ "42"]`. -/
def pendingExample : KatoStatus :=
  { finished := false
    failed := Json.bool false
    current_state := Json.str "PENDING"
    exception_details := none
    detail_path := some (Json.str "/task/42")
    request_id := some (Json.str "42")
    error := none }

/-- The tracker constructed from an unparseable initial response
`"x"`: the terminal internal-error state. -/
def terminalExample : KatoStatus :=
  { finished := true
    failed := Json.bool true
    current_state := Json.str "CITEST_INTERNAL_ERROR"
    exception_details := none
    detail_path := none
    request_id := none
    error := some "Invalid response=\"x\"" }

/-- A concrete poll document reporting a still-running operation. -/
def runningDoc : Json :=
  Json.obj [("status", Json.obj
    [("completed", Json.bool false), ("failed", Json.bool false),
     ("phase", Json.str "RUNNING")])]

/-- `pendingExample` after one refresh with `runningDoc`. -/
def runningExample : KatoStatus :=
  { pendingExample with current_state := Json.str "RUNNING" }

/-- C9: for every tracker state, the `timed_out` query returns
`false`: the base tracker never self-declares a timeout regardless of
elapsed time.  (Stated for all states, which subsumes the reachable
ones.) -/
theorem C9_timed_out_always_false (s : KatoStatus) :
    KatoStatus.timed_out s = false := rfl

/-- C2: for every tracker with `finished = true` and every poll
document, the refresh step returns the tracker unchanged (hence every
observable field — `finished`, `failed`, `current_state`,
`exception_details`, `resource_uri`, `request_id` — is unchanged):
refresh is a no-op once a terminal state is reached. -/
theorem C2_refresh_noop_once_terminal (s : KatoStatus) (doc : Json)
    (h : s.finished = true) :
    KatoStatus.refresh s doc = some s := by
  simp [KatoStatus.refresh, h]

/-- C2 witness: the no-op theorem applied to a concrete terminal
tracker and a concrete document. -/
theorem C2_refresh_noop_once_terminal_witness :
    KatoStatus.refresh terminalExample Json.null = some terminalExample :=
  C2_refresh_noop_once_terminal terminalExample Json.null rfl

/-- C3: for every malformed initial response — the decode raised
(`doc = none`), or the decoded value is not an object — the
constructed tracker has `finished = true`, `failed = True` and
`current_state = "CITEST_INTERNAL_ERROR"`. -/
theorem C3_malformed_initial_is_internal_error (doc : Option Json) (orig : String)
    (h : ∀ fields, doc ≠ some (Json.obj fields)) :
    ∃ s, KatoStatus.init doc orig = some s ∧
      s.finished = true ∧ s.failed = Json.bool true ∧
      s.current_state = Json.str "CITEST_INTERNAL_ERROR" := by
  match doc with
  | none => exact ⟨_, rfl, rfl, rfl, rfl⟩
  | some Json.null => exact ⟨_, rfl, rfl, rfl, rfl⟩
  | some (Json.bool b) => exact ⟨_, rfl, rfl, rfl, rfl⟩
  | some (Json.num n) => exact ⟨_, rfl, rfl, rfl, rfl⟩
  | some (Json.str t) => exact ⟨_, rfl, rfl, rfl, rfl⟩
  | some (Json.arr es) => exact ⟨_, rfl, rfl, rfl, rfl⟩
  | some (Json.obj fields) => exact absurd rfl (h fields)

/-- C3 witness: the malformed-initial theorem applied to a failed
decode (`none`). -/
theorem C3_malformed_initial_is_internal_error_witness :
    ∃ s, KatoStatus.init none "not json" = some s ∧
      s.finished = true ∧ s.failed = Json.bool true ∧
      s.current_state = Json.str "CITEST_INTERNAL_ERROR" :=
  C3_malformed_initial_is_internal_error none "not json"
    (fun _ hc => Option.noConfusion hc)

/-- C7: for every initial response decoding to an object that
contains `resourceUri` and `id`, the constructed tracker is in the
`PENDING` state with `finished = false`, `failed = False`, and its
`resource_uri` (`_detail_path`) and `request_id` are the values of
those fields. -/
theorem C7_valid_initial_pending (fields : List (String × Json)) (uri rid : Json)
    (orig : String)
    (h1 : Json.lookupField fields "resourceUri" = some uri)
    (h2 : Json.lookupField fields "id" = some rid) :
    ∃ s, KatoStatus.init (some (Json.obj fields)) orig = some s ∧
      s.finished = false ∧ s.failed = Json.bool false ∧
      s.current_state = Json.str "PENDING" ∧
      s.detail_path = some uri ∧ s.request_id = some rid := by
  refine ⟨{ finished := false, failed := Json.bool false,
            current_state := Json.str "PENDING", exception_details := none,
            detail_path := some uri, request_id := some rid, error := none },
          ?_, rfl, rfl, rfl, rfl, rfl⟩
  simp [KatoStatus.init, h1, h2, KatoStatus.baseInit]

/-- C7 witness: the valid-initial theorem applied to a concrete
initial response. -/
theorem C7_valid_initial_pending_witness :
    ∃ s, KatoStatus.init
        (some (Json.obj [("resourceUri", Json.str "/task/42"), ("id", Json.str "42")]))
        "r" = some s ∧
      s.finished = false ∧ s.failed = Json.bool false ∧
      s.current_state = Json.str "PENDING" ∧
      s.detail_path = some (Json.str "/task/42") ∧
      s.request_id = some (Json.str "42") :=
  C7_valid_initial_pending
    [("resourceUri", Json.str "/task/42"), ("id", Json.str "42")]
    (Json.str "/task/42") (Json.str "42") "r" rfl rfl

/-- C1 counterexample: the claim asserts that construction from a
JSON object lacking `resourceUri`/`id` completes without raising and
yields a terminal internal-error tracker; in the code
`doc['resourceUri']` raises an uncaught `KeyError` on the empty
object, so construction does not complete (`none` in this
embedding). -/
theorem C1_counterexample_empty_object_raises :
    KatoStatus.init (some (Json.obj [])) "x" = none := rfl

/-- C1 (amended): for every initial response decoding to a JSON
object that lacks `resourceUri` or lacks `id`, construction raises an
uncaught `KeyError` instead of completing; the internal-error
terminal state is reserved for decode failures and non-object
values. -/
theorem C1_missing_fields_raise (fields : List (String × Json)) (orig : String)
    (h : Json.lookupField fields "resourceUri" = none ∨
         Json.lookupField fields "id" = none) :
    KatoStatus.init (some (Json.obj fields)) orig = none := by
  rcases h with h | h
  · simp [KatoStatus.init, h]
  · cases hu : Json.lookupField fields "resourceUri" with
    | none => simp [KatoStatus.init, hu]
    | some uri => simp [KatoStatus.init, hu, h]

/-- C1 witness: the amended theorem applied to an object that has
`resourceUri` but no `id`. -/
theorem C1_missing_fields_raise_witness :
    KatoStatus.init (some (Json.obj [("resourceUri", Json.str "u")])) "x" = none :=
  C1_missing_fields_raise [("resourceUri", Json.str "u")] "x" (Or.inr rfl)

/-- C5: for every non-terminal tracker, refreshing with a poll
document whose status object has `completed = true` and
`failed = true` and carries failure detail (its `status` entry)
leaves the tracker with `finished = true`, `failed = True`,
`finished_ok = false`, and `exception_details` equal to the supplied
detail. -/
theorem C5_refresh_completed_failed (s : KatoStatus) (phase det : Json)
    (hfin : s.finished = false) :
    ∃ s2,
      KatoStatus.refresh s
        (Json.obj [("status", Json.obj
          [("completed", Json.bool true), ("failed", Json.bool true),
           ("phase", phase), ("status", det)])]) = some s2 ∧
      s2.finished = true ∧ s2.failed = Json.bool true ∧
      KatoStatus.finished_ok s2 = false ∧ s2.exception_details = some det := by
  refine ⟨{ s with
              current_state := phase, exception_details := some det,
              finished := true, failed := Json.bool true }, ?_, rfl, rfl, rfl, rfl⟩
  simp [KatoStatus.refresh, hfin, KatoStatus.updateResponseFromJson,
        Json.getField, Json.lookupField, Json.truthy]

/-- C5 witness: the completed-and-failed theorem applied to a
concrete pending tracker and document. -/
theorem C5_refresh_completed_failed_witness :
    ∃ s2,
      KatoStatus.refresh pendingExample
        (Json.obj [("status", Json.obj
          [("completed", Json.bool true), ("failed", Json.bool true),
           ("phase", Json.str "FAILED"), ("status", Json.str "boom")])]) = some s2 ∧
      s2.finished = true ∧ s2.failed = Json.bool true ∧
      KatoStatus.finished_ok s2 = false ∧
      s2.exception_details = some (Json.str "boom") :=
  C5_refresh_completed_failed pendingExample (Json.str "FAILED") (Json.str "boom") rfl

/-- C6: for every non-terminal tracker, refreshing with a poll
document whose status object has `completed = true` and
`failed = false` leaves the tracker with `finished = true`,
`finished_ok = true`, and `exception_details` cleared. -/
theorem C6_refresh_completed_ok (s : KatoStatus) (phase : Json)
    (hfin : s.finished = false) :
    ∃ s2,
      KatoStatus.refresh s
        (Json.obj [("status", Json.obj
          [("completed", Json.bool true), ("failed", Json.bool false),
           ("phase", phase)])]) = some s2 ∧
      s2.finished = true ∧ KatoStatus.finished_ok s2 = true ∧
      s2.exception_details = none := by
  refine ⟨{ s with
              current_state := phase, exception_details := none,
              finished := true, failed := Json.bool false }, ?_, rfl, rfl, rfl⟩
  simp [KatoStatus.refresh, hfin, KatoStatus.updateResponseFromJson,
        Json.getField, Json.lookupField, Json.truthy]

/-- C6 witness: the completed-and-succeeded theorem applied to a
concrete pending tracker and document. -/
theorem C6_refresh_completed_ok_witness :
    ∃ s2,
      KatoStatus.refresh pendingExample
        (Json.obj [("status", Json.obj
          [("completed", Json.bool true), ("failed", Json.bool false),
           ("phase", Json.str "SUCCEEDED")])]) = some s2 ∧
      s2.finished = true ∧ KatoStatus.finished_ok s2 = true ∧
      s2.exception_details = none :=
  C6_refresh_completed_ok pendingExample (Json.str "SUCCEEDED") rfl

/-- C10: for every non-terminal (and hence not-failed) tracker,
refreshing with a poll document whose status object has
`completed = false` and `failed = true` leaves `finished = false` and
`failed = False` — the failed flag alone never makes the tracker
terminal or failed — yet sets `exception_details` to the failure
detail (the status object's `status` entry). -/
theorem C10_failed_without_completed (s : KatoStatus) (phase det : Json)
    (hfin : s.finished = false) (hfail : s.failed = Json.bool false) :
    ∃ s2,
      KatoStatus.refresh s
        (Json.obj [("status", Json.obj
          [("completed", Json.bool false), ("failed", Json.bool true),
           ("phase", phase), ("status", det)])]) = some s2 ∧
      s2.finished = false ∧ s2.failed = Json.bool false ∧
      s2.exception_details = some det := by
  refine ⟨{ s with current_state := phase, exception_details := some det },
          ?_, hfin, hfail, rfl⟩
  simp [KatoStatus.refresh, hfin, KatoStatus.updateResponseFromJson,
        Json.getField, Json.lookupField, Json.truthy]

/-- C10 witness: the failed-without-completed theorem applied to a
concrete running tracker and document. -/
theorem C10_failed_without_completed_witness :
    ∃ s2,
      KatoStatus.refresh runningExample
        (Json.obj [("status", Json.obj
          [("completed", Json.bool false), ("failed", Json.bool true),
           ("phase", Json.str "RUNNING"), ("status", Json.str "warn")])]) = some s2 ∧
      s2.finished = false ∧ s2.failed = Json.bool false ∧
      s2.exception_details = some (Json.str "warn") :=
  C10_failed_without_completed runningExample (Json.str "RUNNING") (Json.str "warn")
    rfl rfl

/-- Helper: a successful refresh step never changes the tracking
identifiers `detail_path` (resource_uri) and `request_id`. -/
theorem refresh_preserves_ids (s s2 : KatoStatus) (doc : Json)
    (h : KatoStatus.refresh s doc = some s2) :
    s2.detail_path = s.detail_path ∧ s2.request_id = s.request_id := by
  unfold KatoStatus.refresh at h
  split at h
  · cases Option.some.inj h; exact ⟨rfl, rfl⟩
  · simp only [KatoStatus.updateResponseFromJson] at h
    repeat' split at h
    all_goals first
      | exact Option.noConfusion h
      | (cases Option.some.inj h; exact ⟨rfl, rfl⟩)

/-- Helper: feeding any sequence of poll documents never changes the
tracking identifiers. -/
theorem refreshAll_preserves_ids (docs : List Json) (s0 s : KatoStatus)
    (h : KatoStatus.refreshAll s0 docs = some s) :
    s.detail_path = s0.detail_path ∧ s.request_id = s0.request_id := by
  induction docs generalizing s0 with
  | nil => cases Option.some.inj h; exact ⟨rfl, rfl⟩
  | cons d ds ih =>
    unfold KatoStatus.refreshAll at h
    cases hr : KatoStatus.refresh s0 d with
    | none => rw [hr] at h; exact Option.noConfusion h
    | some s1 =>
      rw [hr] at h
      obtain ⟨p1, p2⟩ := refresh_preserves_ids s0 s1 d hr
      obtain ⟨q1, q2⟩ := ih s1 h
      exact ⟨q1.trans p1, q2.trans p2⟩

/-- C8: for every tracker constructed from a valid initial response
(capturing `resourceUri` and `id`) and every sequence of poll
documents fed to refresh, the tracker's `detail_path` (resource_uri)
and `request_id` still equal the values captured at construction:
refresh never modifies the tracking identifiers. -/
theorem C8_identifiers_never_change (fields : List (String × Json)) (uri rid : Json)
    (orig : String) (s0 s : KatoStatus) (docs : List Json)
    (h1 : Json.lookupField fields "resourceUri" = some uri)
    (h2 : Json.lookupField fields "id" = some rid)
    (h0 : KatoStatus.init (some (Json.obj fields)) orig = some s0)
    (h : KatoStatus.refreshAll s0 docs = some s) :
    s.detail_path = some uri ∧ s.request_id = some rid := by
  have hids := refreshAll_preserves_ids docs s0 s h
  have hinit : KatoStatus.init (some (Json.obj fields)) orig =
      some { KatoStatus.baseInit with detail_path := some uri, request_id := some rid } := by
    simp [KatoStatus.init, h1, h2, KatoStatus.baseInit]
  rw [hinit] at h0
  cases Option.some.inj h0
  exact ⟨hids.1, hids.2⟩

/-- C8 witness: the identifier-stability theorem applied to a
concrete construction followed by one refresh. -/
theorem C8_identifiers_never_change_witness :
    runningExample.detail_path = some (Json.str "/task/42") ∧
    runningExample.request_id = some (Json.str "42") :=
  C8_identifiers_never_change
    [("resourceUri", Json.str "/task/42"), ("id", Json.str "42")]
    (Json.str "/task/42") (Json.str "42") "r" pendingExample runningExample
    [runningDoc] rfl rfl rfl rfl

/-- Helper: any tracker produced by the constructor is either already
terminal or has its raw failed attribute equal to Python `False`. -/
theorem init_finished_or_not_failed (doc : Option Json) (orig : String) (s : KatoStatus)
    (h : KatoStatus.init doc orig = some s) :
    s.finished = true ∨ s.failed = Json.bool false := by
  cases doc with
  | none => cases Option.some.inj h; exact Or.inl rfl
  | some j =>
    cases j with
    | null => cases Option.some.inj h; exact Or.inl rfl
    | bool b => cases Option.some.inj h; exact Or.inl rfl
    | num n => cases Option.some.inj h; exact Or.inl rfl
    | str t => cases Option.some.inj h; exact Or.inl rfl
    | arr es => cases Option.some.inj h; exact Or.inl rfl
    | obj fields =>
      cases hu : Json.lookupField fields "resourceUri" with
      | none =>
        rw [show KatoStatus.init (some (Json.obj fields)) orig = none from by
          simp [KatoStatus.init, hu]] at h
        exact Option.noConfusion h
      | some uri =>
        cases hi : Json.lookupField fields "id" with
        | none =>
          rw [show KatoStatus.init (some (Json.obj fields)) orig = none from by
            simp [KatoStatus.init, hu, hi]] at h
          exact Option.noConfusion h
        | some rid =>
          rw [show KatoStatus.init (some (Json.obj fields)) orig =
              some { KatoStatus.baseInit with
                       detail_path := some uri, request_id := some rid } from by
            simp [KatoStatus.init, hu, hi, KatoStatus.baseInit]] at h
          cases Option.some.inj h
          exact Or.inr rfl

/-- Helper: a successful refresh step preserves the invariant that a
truthy failed attribute only occurs on a finished tracker. -/
theorem refresh_preserves_failed_imp_finished (s s2 : KatoStatus) (doc : Json)
    (h : KatoStatus.refresh s doc = some s2)
    (hinv : s.failed.truthy = true → s.finished = true) :
    s2.failed.truthy = true → s2.finished = true := by
  unfold KatoStatus.refresh at h
  split at h
  · cases Option.some.inj h; exact hinv
  · simp only [KatoStatus.updateResponseFromJson] at h
    repeat' split at h
    all_goals first
      | exact Option.noConfusion h
      | (cases Option.some.inj h; intro hx; rfl)
      | (cases Option.some.inj h; exact hinv)

/-- C4: in every tracker state reachable by construction followed by
any sequence of refresh steps, a truthy `failed` implies
`finished = true`, and `finished_ok = true` implies `finished = true`
and a falsy `failed`. -/
theorem C4_invariants (s : KatoStatus) (h : Reachable s) :
    (s.failed.truthy = true → s.finished = true) ∧
    (KatoStatus.finished_ok s = true → s.finished = true ∧ s.failed.truthy = false) := by
  constructor
  · induction h with
    | init doc orig t hinit =>
      rcases init_finished_or_not_failed doc orig t hinit with hf | hf
      · exact fun _ => hf
      · intro hx; rw [hf] at hx; exact absurd hx (by decide)
    | step t t2 doc hs hstep ih =>
      exact refresh_preserves_failed_imp_finished t t2 doc hstep ih
  · intro hok
    simp [KatoStatus.finished_ok] at hok
    exact hok

/-- C4 witness: the invariants applied to the concrete reachable
pending tracker. -/
theorem C4_invariants_witness :
    (pendingExample.failed.truthy = true → pendingExample.finished = true) ∧
    (KatoStatus.finished_ok pendingExample = true →
      pendingExample.finished = true ∧ pendingExample.failed.truthy = false) :=
  C4_invariants pendingExample
    (Reachable.init
      (some (Json.obj [("resourceUri", Json.str "/task/42"), ("id", Json.str "42")]))
      "r" pendingExample rfl)

end Spinnaker
